import Mathlib

/-
Verification of the kyks component framework against its specification.

The development shallowly embeds the claim-relevant parts of the source:
  - the status enumeration and user-status computation (src/models/users.py),
  - the ButtonAction stage machine (src/models/actions.py),
  - the access checks (src/models/base.py, src/models/actions.py),
  - the safe_render retry loop and control-flow signals
    (src/views.py, src/exceptions.py, src/middleware.py),
  - the kykin rendering helper (src/templatetags/kyks_tags.py),
  - the list pagination (src/models/base.py, KykList.kyk_in),
  - the Kyks registry (src/models/base.py, kykdict and append2Kyks).
-/

set_option autoImplicit false

namespace Kyks

/-! ## Status levels

In the source, Status is built from the configuration value settings.KYK_STATUS
as an ordered enumeration that assigns consecutive integers starting at 1
(ParameterDict in src/models/base.py, lines 25-28).  The configuration file is
not part of the sources; the names and their order are modelled from the spec:
the spec section 3 gives the ordered example
PUBLIC < HUMAN < USER < EDITOR < STAFF < AGENT < ADMINISTRATOR,
which matches every status name used in the source code. -/

namespace Status

def PUBLIC : Nat := 1
def HUMAN : Nat := 2
def USER : Nat := 3
def EDITOR : Nat := 4
def STAFF : Nat := 5
def AGENT : Nat := 6
def ADMINISTRATOR : Nat := 7

end Status

/-! ## Requests

A request exposes a method string, the query parameters (request.GET) and the
body (request.POST).  Both Django QueryDicts are modelled as ordered lists of
key-value pairs.  QueryDict.get returns the value stored last under a key, or
None when the key is absent. -/

structure Request where
  method : String
  GET : List (String × String)
  POST : List (String × String)
deriving DecidableEq, Repr

/-- Django QueryDict.get: the last value stored under the key, if any. -/
def qdGet (params : List (String × String)) (key : String) : Option String :=
  (params.filterMap fun p => if p.1 = key then some p.2 else none).getLast?

/-- Python membership test: key in QueryDict. -/
def qdHasKey (params : List (String × String)) (key : String) : Bool :=
  params.any fun p => p.1 = key

/-! ## ButtonAction stage machine (src/models/actions.py, class ButtonAction)

A ButtonAction is bound to an owning kyk; the fields that the stage machine
reads are the action name and the identifier of the owning kyk
(self.kyk.kyk_identifier).  The label is the display text computed in the
source from the underscore-to-title-cased name or an explicit label; no claim
depends on its text, so it is carried as a field. -/

def PRESENT_BUTTON : Nat := 1
def PRESENT_FORM : Nat := 2
def PROCESS_FORM : Nat := 3

structure ButtonAction where
  name : String
  kyk_identifier : String
  label : String
deriving DecidableEq, Repr

/-- Source: the submitter property, line 174-176 of src/models/actions.py. -/
def ButtonAction.submitter (a : ButtonAction) : String :=
  a.kyk_identifier ++ "-" ++ a.name

/-- Source: ButtonAction.get_stage, lines 178-185 of src/models/actions.py. -/
def ButtonAction.get_stage (a : ButtonAction) (r : Request) : Nat :=
  if r.method = "GET" ∧ qdGet r.GET a.name = some a.kyk_identifier then
    PRESENT_FORM
  else if r.method = "POST" ∧ qdHasKey r.POST a.submitter then
    PROCESS_FORM
  else
    PRESENT_BUTTON

/-! ## ButtonAction rendering (kyk_in, button, result)

The handler (the decorated method, self.func) is abstracted: rendering is
modelled as an observable outcome that records either the button markup
produced by KykGetButton, the empty string, or a call of the handler together
with the data and submitter arguments that the source passes to it. -/

inductive BARender where
  /-- Outcome of KykGetButton(name, code, label, design). -/
  | getButton (name : String) (code : String) (label : String) (design : String)
  /-- The empty string returned when the action was not activated. -/
  | emptyStr
  /-- Invocation self.func(self.kyk, request, data, submitter, ...). -/
  | handlerCall (data : Option (List (String × String))) (submitter : String)
deriving DecidableEq, Repr

/-- Source: ButtonAction.button, lines 198-207.  The Python idiom
stage = stage or self.get_stage(request) recomputes the stage when the
argument is the falsy 0. -/
def ButtonAction.button (a : ButtonAction) (r : Request) (stage : Nat)
    (design : String) : BARender :=
  let stage := if stage = 0 then a.get_stage r else stage
  let design := if PRESENT_BUTTON < stage then "disabled" else design
  .getButton a.name a.kyk_identifier a.label design

/-- Source: ButtonAction.result, lines 211-221. -/
def ButtonAction.result (a : ButtonAction) (r : Request) (stage : Nat) : BARender :=
  let stage := if stage = 0 then a.get_stage r else stage
  if stage ≤ PRESENT_BUTTON then
    .emptyStr
  else
    .handlerCall (if stage = PROCESS_FORM then some r.POST else none) a.submitter

/-- Source: ButtonAction.kyk_in, lines 187-194.  On a stage above
PRESENT_BUTTON it delegates to result with the stage argument 0 (left out for
backwards compatibility), so result recomputes the stage from the request. -/
def ButtonAction.kyk_in (a : ButtonAction) (r : Request) (stage : Nat)
    (design : String) : BARender :=
  let stage := if stage = 0 then a.get_stage r else stage
  if stage ≤ PRESENT_BUTTON then
    a.button r stage design
  else
    a.result r 0

/-! ## User status computation (src/models/users.py, set_user_status)

The user object carries the Django authentication flags and the two numeric
attributes that set_user_status writes.  The session is read through
session.get with defaults False (for is_human) and Status.USER (for status),
modelled by a Bool and an Option Nat. -/

structure AuthUser where
  is_authenticated : Bool
  is_superuser : Bool
  is_staff : Bool
  status : Nat
  max_status : Nat
deriving DecidableEq, Repr

structure SessionData where
  is_human : Bool
  status : Option Nat
deriving DecidableEq, Repr

/-- Source: set_user_status, lines 200-209 of src/models/users.py. -/
def set_user_status (user : AuthUser) (session : SessionData) : AuthUser :=
  let mx : Nat :=
    if user.is_authenticated = false then
      if session.is_human then Status.HUMAN else Status.PUBLIC
    else if user.is_superuser then Status.ADMINISTRATOR
    else if user.is_staff then Status.AGENT
    else Status.USER
  { user with
    max_status := mx
    status := min (session.status.getD Status.USER) mx }

/-! ## Access checks (src/models/base.py and src/models/actions.py)

KykBase.kyk_allowed compares the user status with the kyk_STATUS threshold.

AuthorAction.kyk_allowed (src/models/actions.py, lines 256-268) additionally
tries to fetch the author of the kyk through
getattr(self._intance, self.AUTHOR_FIELD) inside a try block whose
AttributeError handler is pass.  To settle whether that lookup can ever
succeed, the attributes of the action object are embedded as an explicit
Python-style attribute dictionary: __init__ and __get__ are translated as the
functions that populate the dictionary, and attribute access is a lookup that
falls back to the class attributes and yields none on AttributeError. -/

structure PyUser where
  uid : Nat
  status : Nat
deriving DecidableEq, Repr

/-- Source: KykBase.kyk_allowed, lines 141-145 of src/models/base.py.
The threshold kyk_STATUS is passed explicitly. -/
def KykBase.kyk_allowed (kyk_STATUS : Nat) (user : PyUser) : Bool :=
  kyk_STATUS ≤ user.status

/-- Values that can be stored under an attribute name of the action object:
status integers, strings, booleans and a reference to the owning kyk instance.
A kyk instance is carried as its own field dictionary, mapping field names to
the uid of the user stored there (the author fields hold user objects). -/
inductive AAVal where
  | num (n : Nat)
  | str (s : String)
  | boolv (b : Bool)
  | obj (fields : List (String × Nat))
deriving DecidableEq, Repr

abbrev AADict := List (String × AAVal)

/-- Python attribute assignment: overwrite an existing entry in place or
append a new one. -/
def pySetAttr : AADict → String → AAVal → AADict
  | [], name, v => [(name, v)]
  | p :: ps, name, v =>
    if p.1 = name then (name, v) :: ps else p :: pySetAttr ps name v

/-- Class-level attributes of AuthorAction that plain attribute lookup can
fall back to: AUTHOR_STATUS defaults to Status.USER (line 248 of
src/models/actions.py). -/
def AuthorAction.classAttrs : AADict := [("AUTHOR_STATUS", .num Status.USER)]

/-- Python attribute lookup on the action object: the instance dictionary
first, then the class attributes; none models an AttributeError. -/
def pyGetAttr (d : AADict) (name : String) : Option AAVal :=
  match d.find? fun p => p.1 = name with
  | some p => some p.2
  | none => (AuthorAction.classAttrs.find? fun p => p.1 = name).map (fun p => p.2)

/-- Source: AuthorAction.__init__, lines 250-254 of src/models/actions.py.
It stores AUTHOR_STATUS (when given), AUTHOR_FIELD, and via
Action.__init__ the kyk_STATUS (when given). -/
def AuthorAction.init_ (author_status : Option Nat) (status : Option Nat)
    (author_field : String) : AADict :=
  let d : AADict := []
  let d := match author_status with
    | some a => pySetAttr d "AUTHOR_STATUS" (.num a)
    | none => d
  let d := pySetAttr d "AUTHOR_FIELD" (.str author_field)
  match status with
  | some s => pySetAttr d "kyk_STATUS" (.num s)
  | none => d

/-- Source: the decorator returned by Action.apply (lines 95-98 of
src/models/actions.py) stores kyk_is_instance and func on the action.  The
function value is irrelevant to the access check and is recorded as a
boolean flag. -/
def Action.applyDecorator (d : AADict) (kyk_is_inst : Bool) : AADict :=
  let d := pySetAttr d "kyk_is_instance" (.boolv kyk_is_inst)
  pySetAttr d "func" (.boolv true)

/-- Source: Action.__get__, lines 80-82 of src/models/actions.py, for the
case of an action bound to a kyk instance: self.kyk = instance. -/
def Action.dunder_get (d : AADict) (kykObj : List (String × Nat)) : AADict :=
  pySetAttr d "kyk" (.obj kykObj)

/-- Source: AuthorAction.kyk_allowed, lines 256-268 of src/models/actions.py.
The line required_status = self.kyk_STATUS runs before the try block: if the
attribute is missing the AttributeError propagates, modelled by none.
Inside the try block, getattr(self._intance, self.AUTHOR_FIELD) is evaluated
attribute by attribute; any AttributeError lands in the except branch, which
is pass.  In the else branch, when the user equals the author, the required
status becomes self.AUTHOR_STATUS. -/
def AuthorAction.kyk_allowed (d : AADict) (user : PyUser) : Option Bool :=
  match pyGetAttr d "kyk_STATUS" with
  | some (.num required₀) =>
    let required : Nat :=
      match pyGetAttr d "_intance" with
      | none => required₀
      | some (.obj inst) =>
        match pyGetAttr d "AUTHOR_FIELD" with
        | some (.str f) =>
          match inst.find? fun p => p.1 = f with
          | none => required₀
          | some p =>
            if user.uid = p.2 then
              match pyGetAttr d "AUTHOR_STATUS" with
              | some (.num a) => a
              | _ => required₀
            else required₀
        | _ => required₀
      | some _ => required₀
    some (decide (required ≤ user.status))
  | _ => none

/-- Modelled from the spec: the intended author-override access check
(spec sections 4.1 and 8): the user is allowed when their status reaches the
threshold, where the threshold is authorStatus instead of the general
kyk_STATUS when the user equals the designated author of the component. -/
def allowedSpec (kyk_STATUS AUTHOR_STATUS : Nat) (author : Option Nat)
    (user : PyUser) : Bool :=
  let required := if author = some user.uid then AUTHOR_STATUS else kyk_STATUS
  required ≤ user.status

/-! ## Control-flow signals and the safe_render retry loop
(src/exceptions.py, src/views.py, src/middleware.py)

The exceptions that can cross the render call are embedded as an inductive
type.  ReloadAsGet is a subclass of Reload with the same payload (an optional
replacement kyk and a template that defaults to the empty string, which is
falsy).  Redirection carries positional target arguments and the keyword
arguments, of which only the permanent flag matters for the claims.  The type
parameter K is the type of kyk objects; responses are abstracted by R. -/

inductive Exc (K : Type) where
  | reload (kyk : Option K) (template : String)
  | reloadAsGet (kyk : Option K) (template : String)
  | redirection (args : List String) (permanent : Bool)
  | http404
deriving DecidableEq, Repr

/-- Result of one call of django.shortcuts.render: a response or a raised
exception. -/
inductive Rendered (K R : Type) where
  | ok (resp : R)
  | exc (e : Exc K)
deriving DecidableEq, Repr

/-- Does the render call raise a Reload (including its subclass ReloadAsGet)? -/
def Rendered.isReloadSignal {K R : Type} : Rendered K R → Bool
  | .exc (.reload _ _) => true
  | .exc (.reloadAsGet _ _) => true
  | _ => false

/-- The state of one attempt of the safe_render loop: the request and the kyk
and template passed to render on that attempt. -/
structure Attempt (K : Type) where
  req : Request
  kyk : K
  template : String
deriving DecidableEq, Repr

/-- Python: reload.template or template, where the default template payload is
the falsy empty string. -/
def tmplOr (t old : String) : String := if t = "" then old else t

/-- Outcome of safe_render: a response, the Http404 raised after the loop
finishes, or an exception that the loop does not catch and that propagates. -/
inductive SROut (K R : Type) where
  | response (resp : R)
  | notFound
  | uncaught (e : Exc K)
deriving DecidableEq, Repr

/-- Source: safe_render, lines 54-71 of src/views.py.  The loop body renders,
catches ReloadAsGet (forcing the request method to GET and emptying the POST
body) and Reload (leaving the request unchanged), updates the kyk and the
template from the signal with falsy-defaulting, and retries; any other
exception propagates.  When the loop completes all RELOADS iterations, the
for-else clause raises Http404.  Besides the outcome, the embedding returns
the trace of attempts: the request, kyk and template passed to each render
call, so that theorems can speak about the number of attempts and the state
of the request on each retry. -/
def safe_render {K R : Type} (render : Request → K → String → Rendered K R) :
    Request → K → String → Nat → SROut K R × List (Attempt K)
  | _, _, _, 0 => (.notFound, [])
  | req, kyk, tmpl, Nat.succ n =>
    let att : Attempt K := ⟨req, kyk, tmpl⟩
    match render req kyk tmpl with
    | .ok resp => (.response resp, [att])
    | .exc (.reloadAsGet k t) =>
      let req2 : Request := { req with method := "GET", POST := [] }
      let rest := safe_render render req2 (k.getD kyk) (tmplOr t tmpl) n
      (rest.1, att :: rest.2)
    | .exc (.reload k t) =>
      let rest := safe_render render req (k.getD kyk) (tmplOr t tmpl) n
      (rest.1, att :: rest.2)
    | .exc e => (.uncaught e, [att])

/-- The attempt state passed to render on attempt i (0-based); the starting
state is used as the default value of the list lookup. -/
def attemptAt {K R : Type} (render : Request → K → String → Rendered K R)
    (req : Request) (kyk : K) (tmpl : String) (reloads i : Nat) : Attempt K :=
  (safe_render render req kyk tmpl reloads).2.getD i ⟨req, kyk, tmpl⟩

/-- An HTTP redirect response as produced by django.shortcuts.redirect:
the positional target arguments and the permanence flag. -/
structure RedirectResponse where
  args : List String
  permanent : Bool
deriving DecidableEq, Repr

/-- Source: RedirectionMiddleware.process_exception, lines 36-38 of
src/middleware.py: a Redirection exception is translated into
redirect(*exception.args, **exception.kwargs); every other exception is left
alone (the method implicitly returns None). -/
def process_exception {K : Type} : Exc K → Option RedirectResponse
  | .redirection args permanent => some ⟨args, permanent⟩
  | _ => none

/-! ## The kykin rendering helper (src/templatetags/kyks_tags.py, kykin)

The kyk argument can be an object with a kyk_in method, a callable, or a
string; it may or may not have a kyk_allowed attribute.  The body variants
and the produced content are abstracted over a type α. -/

inductive KykBody (α : Type) where
  /-- kyk has a kyk_in method. -/
  | renderIn (f : Request → α)
  /-- kyk has no kyk_in method but is callable. -/
  | call (f : Request → α)
  /-- kyk is a plain string. -/
  | lit (s : α)

structure KykArg (α : Type) where
  /-- none models the absence of a kyk_allowed attribute. -/
  kyk_allowed : Option (PyUser → Bool)
  body : KykBody α

/-- Observable result of kykin: the raised ImproperlyConfigured error, the
empty string returned on a missing request or a denied access check, or
content generated from the kyk body (by kyk.kyk_in, by calling the kyk, or
the string itself). -/
inductive KykinOut (α : Type) where
  | configError
  | emptyStr
  | content (c : α)
deriving DecidableEq, Repr

/-- Source: kykin, lines 36-79 of src/templatetags/kyks_tags.py.  The request
is taken from the context (ImproperlyConfigured in DEBUG mode, the empty
string otherwise, when absent); then the access check runs when the kyk has
one, returning the empty string on denial; only then is the content
generated.  The subsequent template rendering of a (template, context) pair
is folded into the abstract content. -/
def kykin {α : Type} (DEBUG : Bool) (ctxRequest : Option Request)
    (user : PyUser) (kyk : KykArg α) : KykinOut α :=
  match ctxRequest with
  | none => if DEBUG then .configError else .emptyStr
  | some request =>
    let denied := match kyk.kyk_allowed with
      | some allowed => !allowed user
      | none => false
    if denied then .emptyStr
    else
      match kyk.body with
      | .renderIn f => .content (f request)
      | .call f => .content (f request)
      | .lit s => .content s

/-! ## List pagination (src/models/base.py, KykList.kyk_in, lines 318-351)

The ordered query list is embedded as a Lean list; count is its length and
queryset slicing qs[a:b] and qs[a:] is drop/take (Django querysets reject
negative slice indices; the model clamps at zero, which agrees with the
source on all nonnegative indices).  The effective index and size are the
integers obtained from the GET parameters or the call-site defaults; the
pagination core is a function of those effective values and the list. -/

def pySliceTo {α : Type} (l : List α) (a b : Int) : List α :=
  (l.drop a.toNat).take (b - a).toNat

def pySliceFrom {α : Type} (l : List α) (a : Int) : List α :=
  l.drop a.toNat

structure PageContext (α : Type) where
  previous_index : Int
  next_index : Int
  kyk_list : List α
deriving DecidableEq, Repr

namespace KykList

/-- Source: the pagination part of KykList.kyk_in, lines 335-351 of
src/models/base.py. -/
def kyk_in {α : Type} (items : List α) (index size : Int) : PageContext α :=
  let previous_index := index - size
  let previous_index := if previous_index < 0 ∧ 0 < index then 0 else previous_index
  let next_index := index + size
  if next_index < (items.length : Int) then
    { previous_index := previous_index
      next_index := next_index
      kyk_list := pySliceTo items index next_index }
  else
    { previous_index := previous_index
      next_index := 0
      kyk_list := pySliceFrom items index }

end KykList

/-! ## The Kyks registry (src/models/base.py, kykdict and append2Kyks)

Registered components are modelled by an object identity, the two attributes
written during registration (kyk_Kyks_key by kykdict.__setitem__, identifier
by append2Kyks), and a flag telling whether attribute assignment on the
object succeeds (the AttributeError branch of __setitem__ is pass).  The
dictionary is an ordered association list with Python dict assignment
semantics. -/

structure KykObj where
  oid : Nat
  kyk_Kyks_key : Option String
  identifier : Option String
  settable : Bool
deriving DecidableEq, Repr

abbrev KyksDict := List (String × KykObj)

/-- Python dict assignment: replace the entry in place or append it. -/
def dictSet : KyksDict → String → KykObj → KyksDict
  | [], key, v => [(key, v)]
  | p :: ps, key, v =>
    if p.1 = key then (key, v) :: ps else p :: dictSet ps key v

/-- Source: kykdict.__setitem__, lines 68-77 of src/models/base.py: store the
key on the value as kyk_Kyks_key (ignoring an AttributeError), then defer to
dict.__setitem__. -/
def kykdictSetItem (d : KyksDict) (key : String) (val : KykObj) : KyksDict :=
  let val := if val.settable then { val with kyk_Kyks_key := some key } else val
  dictSet d key val

/-- Dictionary lookup, Kyks[name]. -/
def kyksGet (d : KyksDict) (key : String) : Option KykObj :=
  (d.find? fun p => p.1 = key).map fun p => p.2

/-- Source: the decorating functions inside append2Kyks, lines 84-109 of
src/models/base.py: instantiate the class, set the identifier attribute to
the chosen name, and store the instance in Kyks under that name.  The fresh
instance is passed in as kyk. -/
def append2Kyks (d : KyksDict) (name : String) (kyk : KykObj) : KyksDict :=
  kykdictSetItem d name { kyk with identifier := some name }

/-! ## Theorems -/

/-- The membership test on a QueryDict depends only on the keys. -/
lemma qdHasKey_of_keys_eq (l l2 : List (String × String)) (k : String)
    (h : l.map Prod.fst = l2.map Prod.fst) : qdHasKey l k = qdHasKey l2 k := by
  have ha : ∀ m : List (String × String),
      qdHasKey m k = (m.map Prod.fst).any fun x => decide (x = k) := by
    intro m
    induction m with
    | nil => rfl
    | cons p ps ih =>
      unfold qdHasKey at ih ⊢
      simp only [List.map_cons, List.any_cons, ih]
  rw [ha, ha, h]

/-- C1: ButtonAction.get_stage returns PRESENT_FORM on a GET request whose
query parameter named after the action has the owner identifier as value;
otherwise PROCESS_FORM on a POST request whose body contains the submitter
key (identifier, hyphen, name); otherwise PRESENT_BUTTON.  Moreover the stage
only depends on the request method, the query parameters, the body keys, the
identifier and the name, so equal inputs always yield the same stage. -/
theorem get_stage_follows_spec (a a2 : ButtonAction) (r r2 : Request) :
    ((r.method = "GET" ∧ qdGet r.GET a.name = some a.kyk_identifier) →
      a.get_stage r = PRESENT_FORM)
    ∧ (¬(r.method = "GET" ∧ qdGet r.GET a.name = some a.kyk_identifier) →
      (r.method = "POST" ∧ qdHasKey r.POST a.submitter = true) →
      a.get_stage r = PROCESS_FORM)
    ∧ (¬(r.method = "GET" ∧ qdGet r.GET a.name = some a.kyk_identifier) →
      ¬(r.method = "POST" ∧ qdHasKey r.POST a.submitter = true) →
      a.get_stage r = PRESENT_BUTTON)
    ∧ (r.method = r2.method → r.GET = r2.GET →
      r.POST.map Prod.fst = r2.POST.map Prod.fst →
      a.name = a2.name → a.kyk_identifier = a2.kyk_identifier →
      a.get_stage r = a2.get_stage r2) := by
  refine ⟨?_, ?_, ?_, ?_⟩
  · intro h
    simp [ButtonAction.get_stage, h]
  · intro h1 h2
    simp only [ButtonAction.get_stage, if_neg h1]
    simp [h2.1, h2.2]
  · intro h1 h2
    simp only [ButtonAction.get_stage, if_neg h1, if_neg h2]
  · intro hm hg hp hn hi
    have hs : a.submitter = a2.submitter := by
      unfold ButtonAction.submitter
      rw [hn, hi]
    unfold ButtonAction.get_stage
    rw [hm, hg, hn, hi, hs, qdHasKey_of_keys_eq r.POST r2.POST a2.submitter hp]

/-- Witness for C1 at concrete inputs: a GET request carrying edit=page-1
activates the action named edit owned by page-1 into PRESENT_FORM. -/
theorem get_stage_follows_spec_witness :
    ButtonAction.get_stage ⟨"edit", "page-1", "Edit"⟩
      ⟨"GET", [("edit", "page-1")], []⟩ = PRESENT_FORM :=
  (get_stage_follows_spec ⟨"edit", "page-1", "Edit"⟩ ⟨"edit", "page-1", "Edit"⟩
      ⟨"GET", [("edit", "page-1")], []⟩ ⟨"GET", [("edit", "page-1")], []⟩).1
    (by decide)

/-- C2: set_user_status assigns max_status by authentication case
(ADMINISTRATOR for superusers, AGENT for staff, USER for other authenticated
users, HUMAN or PUBLIC for unauthenticated users according to the is_human
session flag), sets status to the minimum of the session-stored status
(defaulting to USER) and max_status, and therefore status never exceeds
max_status. -/
theorem set_user_status_follows_spec (u : AuthUser) (s : SessionData) :
    (u.is_authenticated = true → u.is_superuser = true →
      (set_user_status u s).max_status = Status.ADMINISTRATOR)
    ∧ (u.is_authenticated = true → u.is_superuser = false → u.is_staff = true →
      (set_user_status u s).max_status = Status.AGENT)
    ∧ (u.is_authenticated = true → u.is_superuser = false → u.is_staff = false →
      (set_user_status u s).max_status = Status.USER)
    ∧ (u.is_authenticated = false →
      (set_user_status u s).max_status
        = if s.is_human then Status.HUMAN else Status.PUBLIC)
    ∧ (set_user_status u s).status
        = min (s.status.getD Status.USER) (set_user_status u s).max_status
    ∧ (set_user_status u s).status ≤ (set_user_status u s).max_status := by
  refine ⟨?_, ?_, ?_, ?_, ?_, ?_⟩ <;>
    simp only [set_user_status] <;>
    intros <;>
    simp_all [min_le_right]

/-- Witness for C2 at a concrete input: an authenticated staff member with a
session-stored status of ADMINISTRATOR is clamped to AGENT. -/
theorem set_user_status_follows_spec_witness :
    (set_user_status ⟨true, false, true, 0, 0⟩
        ⟨false, some Status.ADMINISTRATOR⟩).max_status = Status.AGENT
    ∧ (set_user_status ⟨true, false, true, 0, 0⟩
        ⟨false, some Status.ADMINISTRATOR⟩).status
      ≤ (set_user_status ⟨true, false, true, 0, 0⟩
        ⟨false, some Status.ADMINISTRATOR⟩).max_status :=
  ⟨(set_user_status_follows_spec ⟨true, false, true, 0, 0⟩
      ⟨false, some Status.ADMINISTRATOR⟩).2.1 rfl rfl rfl,
   (set_user_status_follows_spec ⟨true, false, true, 0, 0⟩
      ⟨false, some Status.ADMINISTRATOR⟩).2.2.2.2.2⟩

/-- C3: the author override is dead code.  The action object built by
AuthorAction.__init__ (author_status USER, status EDITOR, author_field
author), the apply decorator and Action.__get__ bound to a kyk whose author
field holds user 7, denies user 7 at status USER, because
AuthorAction.kyk_allowed reads self._intance — an attribute that is never
assigned anywhere (the source assigns kyk in Action.__get__), so the getattr
raises AttributeError on every call and the except branch discards the
override.  The spec-modelled check allowedSpec grants access to the same
user; the general threshold check KykBase.kyk_allowed denies, as the code
does. -/
theorem authorAction_override_never_applies :
    AuthorAction.kyk_allowed
        (Action.dunder_get
          (Action.applyDecorator
            (AuthorAction.init_ (some Status.USER) (some Status.EDITOR) "author")
            true)
          [("author", 7)])
        ⟨7, Status.USER⟩
      = some false
    ∧ KykBase.kyk_allowed Status.EDITOR ⟨7, Status.USER⟩ = false
    ∧ allowedSpec Status.EDITOR Status.USER (some 7) ⟨7, Status.USER⟩ = true := by
  decide

/-- When every render call raises a reload-type signal, the loop uses all its
iterations, raises Http404 and performs exactly one render call per
iteration. -/
lemma safe_render_all_reloads {K R : Type}
    (render : Request → K → String → Rendered K R)
    (h : ∀ q k t, (render q k t).isReloadSignal = true) :
    ∀ (n : Nat) (req : Request) (kyk : K) (tmpl : String),
      (safe_render render req kyk tmpl n).1 = SROut.notFound
      ∧ (safe_render render req kyk tmpl n).2.length = n := by
  intro n
  induction n with
  | zero => intro req kyk tmpl; exact ⟨rfl, rfl⟩
  | succ m ih =>
    intro req kyk tmpl
    have hr := h req kyk tmpl
    unfold safe_render
    match hv : render req kyk tmpl with
    | .ok resp => rw [hv] at hr; simp [Rendered.isReloadSignal] at hr
    | .exc (.reload k t) =>
      have := ih req (k.getD kyk) (tmplOr t tmpl)
      simp [hv, this.1, this.2]
    | .exc (.reloadAsGet k t) =>
      have := ih { req with method := "GET", POST := [] } (k.getD kyk) (tmplOr t tmpl)
      simp [hv, this.1, this.2]
    | .exc (.redirection args p) => rw [hv] at hr; simp [Rendered.isReloadSignal] at hr
    | .exc .http404 => rw [hv] at hr; simp [Rendered.isReloadSignal] at hr

/-- C4: when the render step raises a reload signal on every attempt,
safe_render with the default bound RELOADS = 3 performs exactly 3 render
attempts and then raises Http404 through the for-else clause; the loop is
bounded and cannot run more attempts. -/
theorem safe_render_three_attempts_then_404 {K R : Type}
    (render : Request → K → String → Rendered K R)
    (req : Request) (kyk : K) (tmpl : String)
    (h : ∀ q k t, (render q k t).isReloadSignal = true) :
    (safe_render render req kyk tmpl 3).1 = SROut.notFound
    ∧ (safe_render render req kyk tmpl 3).2.length = 3 :=
  safe_render_all_reloads render h 3 req kyk tmpl

/-- Witness for C4: a renderer that always raises a plain Reload with no
replacement payload ends in Http404 after exactly 3 attempts. -/
theorem safe_render_three_attempts_then_404_witness :
    (safe_render (fun _ _ _ => Rendered.exc (K := Unit) (R := Unit) (.reload none ""))
        ⟨"POST", [], [("a", "b")]⟩ () "page.html" 3).1 = SROut.notFound
    ∧ (safe_render (fun _ _ _ => Rendered.exc (K := Unit) (R := Unit) (.reload none ""))
        ⟨"POST", [], [("a", "b")]⟩ () "page.html" 3).2.length = 3 :=
  safe_render_three_attempts_then_404 _ ⟨"POST", [], [("a", "b")]⟩ () "page.html"
    (fun _ _ _ => rfl)

/-- C6: a Redirection signal is not caught by the retry loop: whatever the
remaining retry budget, the attempt that raises it is the last one, the
signal propagates out of safe_render unchanged, and the middleware translates
exactly this signal class into a redirect response built from the target
arguments and the permanence flag. -/
theorem redirection_propagates_uncaught {K R : Type}
    (render : Request → K → String → Rendered K R)
    (req : Request) (kyk : K) (tmpl : String) (n : Nat)
    (args : List String) (p : Bool)
    (h : render req kyk tmpl = .exc (.redirection args p)) :
    (safe_render render req kyk tmpl (n + 1)).1
      = SROut.uncaught (Exc.redirection args p)
    ∧ (safe_render render req kyk tmpl (n + 1)).2.length = 1
    ∧ process_exception (K := K) (Exc.redirection args p)
      = some ⟨args, p⟩ := by
  unfold safe_render
  rw [h]
  exact ⟨rfl, rfl, rfl⟩

/-- Witness for C6: a renderer that immediately raises a permanent
Redirection to /home propagates it on the first of 3 attempts and the
middleware builds the corresponding redirect response. -/
theorem redirection_propagates_uncaught_witness :
    (safe_render (fun _ _ _ => Rendered.exc (K := Unit) (R := Unit)
          (.redirection ["/home"] true))
        ⟨"GET", [], []⟩ () "page.html" 3).1
      = SROut.uncaught (Exc.redirection ["/home"] true)
    ∧ (safe_render (fun _ _ _ => Rendered.exc (K := Unit) (R := Unit)
          (.redirection ["/home"] true))
        ⟨"GET", [], []⟩ () "page.html" 3).2.length = 1
    ∧ process_exception (K := Unit) (Exc.redirection ["/home"] true)
      = some ⟨["/home"], true⟩ :=
  redirection_propagates_uncaught _ ⟨"GET", [], []⟩ () "page.html" 2 ["/home"] true rfl

/-- The first attempt of a nonempty safe_render trace is the starting state,
whatever default the lookup uses. -/
lemma safe_render_trace_head {K R : Type}
    (render : Request → K → String → Rendered K R)
    (q : Request) (k : K) (t : String) (m : Nat) (d : Attempt K)
    (h : 0 < (safe_render render q k t m).2.length) :
    (safe_render render q k t m).2.getD 0 d = ⟨q, k, t⟩ := by
  match m with
  | 0 => simp [safe_render] at h
  | Nat.succ m2 =>
    unfold safe_render
    match hv : render q k t with
    | .ok resp => simp [hv, List.getD]
    | .exc (.reload k0 t0) => simp [hv, List.getD]
    | .exc (.reloadAsGet k0 t0) => simp [hv, List.getD]
    | .exc (.redirection args p) => simp [hv, List.getD]
    | .exc .http404 => simp [hv, List.getD]

/-- Between two consecutive attempts of a safe_render trace, the render call
of the earlier attempt raised either a plain Reload — and then the next
attempt keeps the request untouched and only replaces kyk and template with
falsy-defaulting — or a ReloadAsGet — and then the next attempt additionally
has the method forced to GET and an emptied POST body. -/
lemma safe_render_trace_step {K R : Type}
    (render : Request → K → String → Rendered K R) (d : Attempt K) :
    ∀ (n : Nat) (req : Request) (kyk : K) (tmpl : String) (i : Nat),
      i + 1 < (safe_render render req kyk tmpl n).2.length →
      (∃ k t,
        render ((safe_render render req kyk tmpl n).2.getD i d).req
            ((safe_render render req kyk tmpl n).2.getD i d).kyk
            ((safe_render render req kyk tmpl n).2.getD i d).template
          = .exc (.reload k t)
        ∧ (safe_render render req kyk tmpl n).2.getD (i + 1) d
          = ⟨((safe_render render req kyk tmpl n).2.getD i d).req,
             k.getD ((safe_render render req kyk tmpl n).2.getD i d).kyk,
             tmplOr t ((safe_render render req kyk tmpl n).2.getD i d).template⟩)
      ∨ (∃ k t,
        render ((safe_render render req kyk tmpl n).2.getD i d).req
            ((safe_render render req kyk tmpl n).2.getD i d).kyk
            ((safe_render render req kyk tmpl n).2.getD i d).template
          = .exc (.reloadAsGet k t)
        ∧ (safe_render render req kyk tmpl n).2.getD (i + 1) d
          = ⟨{ ((safe_render render req kyk tmpl n).2.getD i d).req with
                method := "GET", POST := [] },
             k.getD ((safe_render render req kyk tmpl n).2.getD i d).kyk,
             tmplOr t ((safe_render render req kyk tmpl n).2.getD i d).template⟩) := by
  intro n
  induction n with
  | zero =>
    intro req kyk tmpl i h
    simp [safe_render] at h
  | succ m ih =>
    intro req kyk tmpl i h
    cases hv : render req kyk tmpl with
    | ok resp =>
      unfold safe_render at h
      rw [hv] at h
      simp at h
    | exc e =>
      cases e with
      | reload k0 t0 =>
        unfold safe_render at h ⊢
        rw [hv] at h ⊢
        dsimp only at h ⊢
        rw [List.length_cons] at h
        match i with
        | 0 =>
          left
          refine ⟨k0, t0, ?_, ?_⟩
          · simpa [List.getD] using hv
          · have hlen : 0 <
                (safe_render render req (k0.getD kyk) (tmplOr t0 tmpl) m).2.length := by
              omega
            simpa [List.getD] using
              safe_render_trace_head render req (k0.getD kyk) (tmplOr t0 tmpl) m d hlen
        | Nat.succ j =>
          have hj : j + 1 <
              (safe_render render req (k0.getD kyk) (tmplOr t0 tmpl) m).2.length := by
            omega
          have hih := ih req (k0.getD kyk) (tmplOr t0 tmpl) j hj
          simpa [List.getD] using hih
      | reloadAsGet k0 t0 =>
        unfold safe_render at h ⊢
        rw [hv] at h ⊢
        dsimp only at h ⊢
        rw [List.length_cons] at h
        match i with
        | 0 =>
          right
          refine ⟨k0, t0, ?_, ?_⟩
          · simpa [List.getD] using hv
          · have hlen : 0 < (safe_render render
                { req with method := "GET", POST := [] }
                (k0.getD kyk) (tmplOr t0 tmpl) m).2.length := by
              omega
            simpa [List.getD] using
              safe_render_trace_head render { req with method := "GET", POST := [] }
                (k0.getD kyk) (tmplOr t0 tmpl) m d hlen
        | Nat.succ j =>
          have hj : j + 1 < (safe_render render
              { req with method := "GET", POST := [] }
              (k0.getD kyk) (tmplOr t0 tmpl) m).2.length := by
            omega
          have hih := ih { req with method := "GET", POST := [] }
            (k0.getD kyk) (tmplOr t0 tmpl) j hj
          simpa [List.getD] using hih
      | redirection args p =>
        unfold safe_render at h
        rw [hv] at h
        simp at h
      | http404 =>
        unfold safe_render at h
        rw [hv] at h
        simp at h

/-- C10: when safe_render catches a plain Reload, the retry happens with the
method and POST body (indeed the whole request) unchanged from the previous
attempt; only ReloadAsGet forces the method to GET and replaces the POST body
by an empty mapping before the retry. -/
theorem reload_keeps_request_reloadAsGet_resets {K R : Type}
    (render : Request → K → String → Rendered K R)
    (req : Request) (kyk : K) (tmpl : String) (n i : Nat)
    (h : i + 1 < (safe_render render req kyk tmpl n).2.length) :
    (∀ k t,
      render (attemptAt render req kyk tmpl n i).req
          (attemptAt render req kyk tmpl n i).kyk
          (attemptAt render req kyk tmpl n i).template
        = .exc (.reload k t) →
      (attemptAt render req kyk tmpl n (i + 1)).req
        = (attemptAt render req kyk tmpl n i).req)
    ∧ (∀ k t,
      render (attemptAt render req kyk tmpl n i).req
          (attemptAt render req kyk tmpl n i).kyk
          (attemptAt render req kyk tmpl n i).template
        = .exc (.reloadAsGet k t) →
      (attemptAt render req kyk tmpl n (i + 1)).req
        = { (attemptAt render req kyk tmpl n i).req with
            method := "GET", POST := [] }) := by
  have hstep := safe_render_trace_step render ⟨req, kyk, tmpl⟩ n req kyk tmpl i h
  unfold attemptAt
  constructor
  · intro k t hk
    rcases hstep with ⟨k2, t2, hr, hb⟩ | ⟨k2, t2, hr, hb⟩
    · rw [hb]
    · rw [hk] at hr
      cases hr
  · intro k t hk
    rcases hstep with ⟨k2, t2, hr, hb⟩ | ⟨k2, t2, hr, hb⟩
    · rw [hk] at hr
      cases hr
    · rw [hb]

/-- Witness for C10: with a renderer that raises ReloadAsGet on a POST
request and plain Reload on everything else, attempt 0 is the original POST
request, attempt 1 is the same request with method GET and empty POST, and
attempt 2 equals attempt 1 because the plain Reload left it unchanged. -/
theorem reload_keeps_request_reloadAsGet_resets_witness :
    (attemptAt
        (fun q _ _ => if q.method = "POST"
          then Rendered.exc (K := Unit) (R := Unit) (.reloadAsGet none "")
          else Rendered.exc (K := Unit) (R := Unit) (.reload none ""))
        ⟨"POST", [], [("a", "b")]⟩ () "page.html" 3 1).req
      = { (attemptAt
            (fun q _ _ => if q.method = "POST"
              then Rendered.exc (K := Unit) (R := Unit) (.reloadAsGet none "")
              else Rendered.exc (K := Unit) (R := Unit) (.reload none ""))
            ⟨"POST", [], [("a", "b")]⟩ () "page.html" 3 0).req with
          method := "GET", POST := [] }
    ∧ (attemptAt
        (fun q _ _ => if q.method = "POST"
          then Rendered.exc (K := Unit) (R := Unit) (.reloadAsGet none "")
          else Rendered.exc (K := Unit) (R := Unit) (.reload none ""))
        ⟨"POST", [], [("a", "b")]⟩ () "page.html" 3 2).req
      = (attemptAt
          (fun q _ _ => if q.method = "POST"
            then Rendered.exc (K := Unit) (R := Unit) (.reloadAsGet none "")
            else Rendered.exc (K := Unit) (R := Unit) (.reload none ""))
          ⟨"POST", [], [("a", "b")]⟩ () "page.html" 3 1).req :=
  ⟨(reload_keeps_request_reloadAsGet_resets
      (fun q _ _ => if q.method = "POST"
        then Rendered.exc (.reloadAsGet none "")
        else Rendered.exc (.reload none ""))
      ⟨"POST", [], [("a", "b")]⟩ () "page.html" 3 0 (by decide)).2 none ""
      (by decide),
   (reload_keeps_request_reloadAsGet_resets
      (fun q _ _ => if q.method = "POST"
        then Rendered.exc (.reloadAsGet none "")
        else Rendered.exc (.reload none ""))
      ⟨"POST", [], [("a", "b")]⟩ () "page.html" 3 1 (by decide)).1 none ""
      (by decide)⟩

/-- C5: when the computed stage of a ButtonAction is PRESENT_FORM or
PROCESS_FORM, both kyk_in and result invoke the decorated handler, with the
data argument equal to the request POST body exactly when the stage is
PROCESS_FORM and equal to None (unbound form) when it is PRESENT_FORM, and
with the submitter key identifier-name in both cases. -/
theorem buttonAction_passes_form_data (a : ButtonAction) (r : Request)
    (h : a.get_stage r = PRESENT_FORM ∨ a.get_stage r = PROCESS_FORM) :
    a.kyk_in r 0 ""
      = BARender.handlerCall
          (if a.get_stage r = PROCESS_FORM then some r.POST else none) a.submitter
    ∧ a.result r 0
      = BARender.handlerCall
          (if a.get_stage r = PROCESS_FORM then some r.POST else none) a.submitter := by
  rcases h with h2 | h3
  · constructor <;>
      simp [ButtonAction.kyk_in, ButtonAction.result, h2,
        PRESENT_FORM, PROCESS_FORM, PRESENT_BUTTON]
  · constructor <;>
      simp [ButtonAction.kyk_in, ButtonAction.result, h3,
        PRESENT_FORM, PROCESS_FORM, PRESENT_BUTTON]

/-- Witness for C5 in the PRESENT_FORM case: a GET request with edit=page-1
renders the unbound form, the handler getting data None and the submitter
key page-1-edit. -/
theorem buttonAction_passes_form_data_witness :
    ButtonAction.kyk_in ⟨"edit", "page-1", "Edit"⟩
        ⟨"GET", [("edit", "page-1")], []⟩ 0 ""
      = BARender.handlerCall none "page-1-edit"
    ∧ ButtonAction.result ⟨"edit", "page-1", "Edit"⟩
        ⟨"POST", [], [("page-1-edit", "Save")]⟩ 0
      = BARender.handlerCall (some [("page-1-edit", "Save")]) "page-1-edit" :=
  ⟨((buttonAction_passes_form_data ⟨"edit", "page-1", "Edit"⟩
        ⟨"GET", [("edit", "page-1")], []⟩ (Or.inl (by decide))).1).trans (by decide),
   ((buttonAction_passes_form_data ⟨"edit", "page-1", "Edit"⟩
        ⟨"POST", [], [("page-1-edit", "Save")]⟩ (Or.inr (by decide))).2).trans
      (by decide)⟩

/-- C7: when the kyk has an access check and the check denies the requesting
user, the kykin helper returns the empty string: the result is the emptyStr
constructor, so the render operation of the kyk was not invoked (its content
would appear under the content constructor) and no error was raised (that
would be the configError constructor). -/
theorem kykin_denied_renders_empty {α : Type} (DEBUG : Bool) (req : Request)
    (user : PyUser) (kyk : KykArg α) (allowed : PyUser → Bool)
    (hA : kyk.kyk_allowed = some allowed) (hd : allowed user = false) :
    kykin DEBUG (some req) user kyk = KykinOut.emptyStr := by
  simp [kykin, hA, hd]

/-- Witness for C7: a kyk whose access check always denies renders as the
empty string, also in DEBUG mode. -/
theorem kykin_denied_renders_empty_witness :
    kykin true (some ⟨"GET", [], []⟩) ⟨1, Status.PUBLIC⟩
        (⟨some (fun u => decide (Status.USER ≤ u.status)), .lit 0⟩ : KykArg Nat)
      = KykinOut.emptyStr :=
  kykin_denied_renders_empty true ⟨"GET", [], []⟩ ⟨1, Status.PUBLIC⟩
    ⟨some (fun u => decide (Status.USER ≤ u.status)), .lit 0⟩
    (fun u => decide (Status.USER ≤ u.status)) rfl rfl

/-- The pagination context in closed form: the code clamps previous_index to
0 only when the index is positive, and leaves it at index - size otherwise;
next_index and the page slice follow the strict comparison with the count. -/
lemma kyklist_kyk_in_eq {α : Type} (l : List α) (i s : Int) :
    KykList.kyk_in l i s =
      { previous_index := if i - s < 0 ∧ 0 < i then 0 else i - s
        next_index := if i + s < (l.length : Int) then i + s else 0
        kyk_list := if i + s < (l.length : Int) then pySliceTo l i (i + s)
          else pySliceFrom l i } := by
  by_cases hp : i - s < 0 ∧ 0 < i <;>
    by_cases hc : i + s < (l.length : Int) <;>
      simp [KykList.kyk_in, hp, hc]

/-- C8 counterexample: for index 0 and size 20 over 45 items, the code
computes previous_index = -20, not the claimed max(0, 0 - 20) = 0: the
clamping guard previous_index < 0 < index is false when index is 0. -/
theorem kyklist_previous_index_zero_counterexample :
    (KykList.kyk_in (List.range 45) 0 20).previous_index = -20
    ∧ max (0 : Int) (0 - 20) = 0 := by
  constructor
  · decide
  · decide

/-- C8 amended: previous_index = max(0, index - size) holds only for
positive index; when index ≤ 0 (in particular when index is already 0)
previous_index stays at index - size, which is negative for a positive page
size.  next_index is index + size when that is strictly below the count and
0 otherwise, and the page is the slice from index to next_index, or to the
end of the list on the last page. -/
theorem kyklist_pagination_amended {α : Type} (l : List α) (i s : Int) :
    (0 < i → (KykList.kyk_in l i s).previous_index = max 0 (i - s))
    ∧ (i ≤ 0 → (KykList.kyk_in l i s).previous_index = i - s)
    ∧ ((KykList.kyk_in l i s).next_index
        = if i + s < (l.length : Int) then i + s else 0)
    ∧ (i + s < (l.length : Int) →
        (KykList.kyk_in l i s).kyk_list = pySliceTo l i (i + s))
    ∧ (¬ i + s < (l.length : Int) →
        (KykList.kyk_in l i s).kyk_list = pySliceFrom l i) := by
  rw [kyklist_kyk_in_eq]
  refine ⟨?_, ?_, ?_, ?_, ?_⟩
  · intro hi
    dsimp only
    split <;> omega
  · intro hi
    dsimp only
    split <;> omega
  · rfl
  · intro hc
    simp [hc]
  · intro hc
    simp [hc]

/-- Witness for C8 amended, checking the three concrete examples of the
claim against the corrected values: index 5 gives previous_index 0 (via the
theorem, whose positivity hypothesis is discharged at 5), index 0 gives
previous_index -20, index 40 gives next_index 0 and a 5-item page, and index
0 gives next_index 20 and a 20-item page. -/
theorem kyklist_pagination_amended_witness :
    (KykList.kyk_in (List.range 45) 5 20).previous_index = max 0 (5 - 20)
    ∧ (KykList.kyk_in (List.range 45) 0 20).previous_index = -20
    ∧ (KykList.kyk_in (List.range 45) 0 20).next_index = 20
    ∧ (KykList.kyk_in (List.range 45) 0 20).kyk_list.length = 20
    ∧ (KykList.kyk_in (List.range 45) 40 20).next_index = 0
    ∧ (KykList.kyk_in (List.range 45) 40 20).kyk_list.length = 5 :=
  ⟨(kyklist_pagination_amended (List.range 45) 5 20).1 (by decide),
   by decide, by decide, by decide, by decide, by decide⟩

/-- Looking up the key just assigned in a dict returns the assigned value. -/
lemma kyksGet_dictSet_self (d : KyksDict) (key : String) (v : KykObj) :
    kyksGet (dictSet d key v) key = some v := by
  induction d with
  | nil => simp [dictSet, kyksGet]
  | cons p ps ih =>
    by_cases hp : p.1 = key
    · simp [dictSet, kyksGet, hp]
    · simp only [dictSet, if_neg hp]
      simpa [kyksGet, hp] using ih

/-- C9 counterexample: registering a second component (object 2) under the
name Home already used by object 1 raises no error and is not detected: the
registration is an ordinary overwrite, the registry afterwards holds a
single entry, and lookup returns object 2 — the first registered instance is
silently lost, contradicting detection at registration time. -/
theorem kyks_duplicate_registration_counterexample :
    append2Kyks (append2Kyks [] "Home" ⟨1, none, none, true⟩) "Home"
        ⟨2, none, none, true⟩
      = [("Home", ⟨2, some "Home", some "Home", true⟩)]
    ∧ kyksGet (append2Kyks (append2Kyks [] "Home" ⟨1, none, none, true⟩) "Home"
        ⟨2, none, none, true⟩) "Home"
      = some ⟨2, some "Home", some "Home", true⟩ := by
  constructor
  · decide
  · decide

/-- C9 amended: duplicate registration is not detected — kykdict and
append2Kyks silently overwrite the existing entry — and lookup after a
registration returns the most recently registered instance, with its
kyk_Kyks_key attribute (and, for append2Kyks, its identifier attribute) set
to the registration name. -/
theorem kyks_lookup_returns_last_registered (d : KyksDict) (name : String)
    (v : KykObj) (h : v.settable = true) :
    kyksGet (kykdictSetItem d name v) name
      = some { v with kyk_Kyks_key := some name }
    ∧ kyksGet (append2Kyks d name v) name
      = some { v with kyk_Kyks_key := some name, identifier := some name } := by
  constructor
  · unfold kykdictSetItem
    rw [if_pos h]
    exact kyksGet_dictSet_self d name { v with kyk_Kyks_key := some name }
  · unfold append2Kyks kykdictSetItem
    rw [if_pos h]
    exact kyksGet_dictSet_self d name
      { v with kyk_Kyks_key := some name, identifier := some name }

/-- Witness for C9 amended: registering object 7 under About in a registry
already holding Home returns object 7 on lookup, with both name attributes
set. -/
theorem kyks_lookup_returns_last_registered_witness :
    kyksGet (kykdictSetItem [("Home", ⟨1, some "Home", none, true⟩)] "About"
        ⟨7, none, none, true⟩) "About"
      = some ⟨7, some "About", none, true⟩
    ∧ kyksGet (append2Kyks [("Home", ⟨1, some "Home", none, true⟩)] "About"
        ⟨7, none, none, true⟩) "About"
      = some ⟨7, some "About", some "About", true⟩ :=
  kyks_lookup_returns_last_registered
    [("Home", ⟨1, some "Home", none, true⟩)] "About" ⟨7, none, none, true⟩ rfl

end Kyks
